import Mathlib

set_option maxRecDepth 8000

/-
Verification development for the Placement-AI-Agent repository.

The Python module `agents.py` is shallowly embedded below.  External
collaborators (the Gemini text-generation HTTP API, the JSearch HTTP API,
Python's `random.shuffle`, and the stdlib JSON decoder) are modelled as
explicit parameters or as executable Lean functions:

* the generative model's behaviour is a function
  `env : String → Nat → Except String String` mapping (prompt, attempt index)
  to either a successful reply text (`Except.ok`) or the string rendering of a
  raised exception (`Except.error`);
* the JSearch HTTP layer is an `Option (List JSearchItem)`: `none` means the
  request raised (network error, bad status, bad JSON body), `some items`
  is the decoded `data` array of the response;
* `random.shuffle` is a deterministic seed-driven Fisher-Yates shuffle;
* `json.loads` is an executable JSON parser over `List Char`.

Python string primitives (slicing, `str.replace`, `str.strip`, `str.lower`,
truthiness) get executable models named `py*`.
-/

namespace PlacementAgent

/-- Does the character list `l` start with the pattern `p`? Model of Python
substring matching used by `in` and `str.replace`. -/
def strStartsWith : List Char → List Char → Bool
  | _, [] => true
  | [], _ :: _ => false
  | c :: cs, p :: ps => c == p && strStartsWith cs ps

/-- Does the character list `l` contain `p` as a contiguous run? -/
def listContains : List Char → List Char → Bool
  | [], p => p.isEmpty
  | c :: cs, p => strStartsWith (c :: cs) p || listContains cs p

/-- Model of Python's `pat in s` substring test. -/
def strContains (s pat : String) : Bool := listContains s.data pat.data

/-- Model of Python's `str.lower` (ASCII range, which is all the code uses). -/
def pyLower (s : String) : String := String.mk (s.data.map Char.toLower)

/-- Characters removed by Python's `str.strip()` (ASCII whitespace). -/
def pyIsSpace (c : Char) : Bool :=
  c == ' ' || c == '\t' || c == '\n' || c == '\r' ||
  c == Char.ofNat 11 || c == Char.ofNat 12

/-- Model of Python's `str.strip()`. -/
def pyStrip (s : String) : String :=
  String.mk (((s.data.dropWhile pyIsSpace).reverse.dropWhile pyIsSpace).reverse)

/-- Model of Python's slice `s[:n]`. -/
def pyTake (s : String) (n : Nat) : String := String.mk (s.data.take n)

/-- Fuel-driven worker for `pyReplace`; the fuel is the input length, which
always suffices because every step consumes at least one character. -/
def pyReplaceFuel (p r : List Char) : Nat → List Char → List Char
  | 0, l => l
  | _ + 1, [] => []
  | fuel + 1, c :: cs =>
    if !p.isEmpty && strStartsWith (c :: cs) p then
      r ++ pyReplaceFuel p r fuel (cs.drop (p.length - 1))
    else
      c :: pyReplaceFuel p r fuel cs

/-- Model of Python's `s.replace(pat, rep)`: every non-overlapping occurrence
of `pat`, scanned left to right, is replaced by `rep`. -/
def pyReplace (s pat rep : String) : String :=
  String.mk (pyReplaceFuel pat.data rep.data s.data.length s.data)

/-- Model of Python's `a or b` on strings: `b` when `a` is falsy (empty). -/
def pyOr (a b : String) : String := if a.isEmpty then b else a

/-- Python truthiness of an optional string (`if x:`): `None` and `""` are
falsy, everything else truthy. -/
def pyFalsy : Option String → Bool
  | none => true
  | some s => s.isEmpty

/-! Generative-text client (`get_gemini_response` in `agents.py`). -/

/-- The retry classifier on line 21 of `agents.py`:
`"429" in str(e) or "Quota exceeded" in str(e)`. -/
def isRateLimitError (e : String) : Bool :=
  strContains e "429" || strContains e "Quota exceeded"

/-- The `max_retries` constant of `get_gemini_response`. -/
def max_retries : Nat := 3

/-- The `for attempt in range(max_retries)` loop of `get_gemini_response`,
over the list of remaining attempt indices.  A successful call returns its
text; a rate-limit-class error retries while attempts remain (the sleep is
irrelevant to the result) and yields `none` on the last attempt; any other
error returns the string `"Error: " ++ str(e)`.  Falling off the loop yields
`none` (the final `return None` of the Python). -/
def geminiLoop (env : Nat → Except String String) : List Nat → Option String
  | [] => none
  | attempt :: rest =>
    match env attempt with
    | Except.ok t => some t
    | Except.error e =>
      if isRateLimitError e then
        match rest with
        | [] => none
        | _ :: _ => geminiLoop env rest
      else some ("Error: " ++ e)

/-- Embedding of `get_gemini_response(prompt, api_key)`.  The external model
call is the environment `env`; the Python function returns `None` (here
`none`) or a string (here `some`). -/
def get_gemini_response (prompt : String)
    (env : String → Nat → Except String String) : Option String :=
  geminiLoop (env prompt) (List.range max_retries)

/-! JSON values and an executable model of the stdlib decoder `json.loads`. -/

/-- JSON values as produced by the decoder.  Numeric literals keep their
lexeme (no floating-point semantics are needed anywhere in the program).
Objects are association lists built with Python-dict insertion semantics
(`dictInsert`), so keys are unique and in first-insertion order. -/
inductive JValue where
  | jnull
  | jbool (b : Bool)
  | jnum (lexeme : String)
  | jstr (s : String)
  | jarr (xs : List JValue)
  | jobj (fields : List (String × JValue))

/-- Whitespace skipped by the JSON decoder. -/
def jisWs (c : Char) : Bool := c == ' ' || c == '\t' || c == '\n' || c == '\r'

/-- Drop leading JSON whitespace. -/
def skipWs (cs : List Char) : List Char := cs.dropWhile jisWs

/-- Value of a hexadecimal digit. -/
def hexVal (c : Char) : Option Nat :=
  if 48 ≤ c.toNat && c.toNat ≤ 57 then some (c.toNat - 48)
  else if 97 ≤ c.toNat && c.toNat ≤ 102 then some (c.toNat - 87)
  else if 65 ≤ c.toNat && c.toNat ≤ 70 then some (c.toNat - 55)
  else none

/-- Decoding of a two-character JSON escape sequence. -/
def escChar (e : Char) : Option Char :=
  if e == '"' then some '"'
  else if e == '\\' then some '\\'
  else if e == '/' then some '/'
  else if e == 'b' then some (Char.ofNat 8)
  else if e == 'f' then some (Char.ofNat 12)
  else if e == 'n' then some '\n'
  else if e == 'r' then some '\r'
  else if e == 't' then some '\t'
  else none

/-- Body of a JSON string after its opening quote: returns the decoded
characters and the input after the closing quote.  Fueled by the input
length. -/
def jstrChars : Nat → List Char → Option (List Char × List Char)
  | 0, _ => none
  | _ + 1, [] => none
  | fuel + 1, c :: cs =>
    if c == '"' then some ([], cs)
    else if c == '\\' then
      match cs with
      | [] => none
      | e :: cs2 =>
        if e == 'u' then
          match cs2 with
          | h1 :: h2 :: h3 :: h4 :: cs3 =>
            match hexVal h1, hexVal h2, hexVal h3, hexVal h4 with
            | some a, some b, some c2, some d =>
              (match jstrChars fuel cs3 with
               | some (out, rest) =>
                 some (Char.ofNat (((a * 16 + b) * 16 + c2) * 16 + d) :: out, rest)
               | none => none)
            | _, _, _, _ => none
          | _ => none
        else
          match escChar e with
          | some c2 =>
            (match jstrChars fuel cs2 with
             | some (out, rest) => some (c2 :: out, rest)
             | none => none)
          | none => none
    else if c.toNat < 32 then none
    else
      match jstrChars fuel cs with
      | some (out, rest) => some (c :: out, rest)
      | none => none

/-- Optional fraction part of a JSON number, appended to the lexeme `acc`. -/
def parseFrac (acc : List Char) (cs : List Char) : Option (List Char × List Char) :=
  match cs with
  | '.' :: t =>
    let ds := t.takeWhile Char.isDigit
    if ds.isEmpty then none
    else some (acc ++ '.' :: ds, t.dropWhile Char.isDigit)
  | _ => some (acc, cs)

/-- Optional exponent part of a JSON number, appended to the lexeme `acc`. -/
def parseExp (acc : List Char) (cs : List Char) : Option (List Char × List Char) :=
  match cs with
  | e :: t =>
    if e == 'e' || e == 'E' then
      let p := match t with
        | '+' :: u => (['+'], u)
        | '-' :: u => (['-'], u)
        | _ => (([] : List Char), t)
      let ds := p.2.takeWhile Char.isDigit
      if ds.isEmpty then none
      else some (acc ++ e :: (p.1 ++ ds), p.2.dropWhile Char.isDigit)
    else some (acc, cs)
  | [] => some (acc, cs)

/-- A JSON number: optional minus, integer part without leading zeros,
optional fraction and exponent.  Returns the lexeme and the rest. -/
def parseNum (cs : List Char) : Option (List Char × List Char) :=
  let p := match cs with
    | '-' :: t => ((['-'] : List Char), t)
    | _ => (([] : List Char), cs)
  match p.2 with
  | [] => none
  | c :: t =>
    if c == '0' then
      match parseFrac (p.1 ++ ['0']) t with
      | some (acc, r) => parseExp acc r
      | none => none
    else if c.isDigit then
      let ds := t.takeWhile Char.isDigit
      match parseFrac (p.1 ++ c :: ds) (t.dropWhile Char.isDigit) with
      | some (acc, r) => parseExp acc r
      | none => none
    else none

/-- Python-dict insertion: an existing key keeps its position and gets the
new value, a new key is appended.  This is how the decoder builds objects,
so duplicate keys resolve to the last occurrence. -/
def dictInsert (k : String) (v : JValue) : List (String × JValue) → List (String × JValue)
  | [] => [(k, v)]
  | (k2, v2) :: rest =>
    if k2 == k then (k2, v) :: rest else (k2, v2) :: dictInsert k v rest

/-- Elements of a non-empty JSON array, given the parsing function `pv` for
values; `cs` starts at the first element. -/
def parseArrLoop (pv : List Char → Option (JValue × List Char)) :
    Nat → List JValue → List Char → Option (JValue × List Char)
  | 0, _, _ => none
  | fuel + 1, acc, cs =>
    match pv cs with
    | none => none
    | some (v, rest) =>
      match skipWs rest with
      | ',' :: rest2 => parseArrLoop pv fuel (v :: acc) rest2
      | ']' :: rest2 => some (JValue.jarr (v :: acc).reverse, rest2)
      | _ => none

/-- Members of a non-empty JSON object, given the parsing function `pv` for
values; `cs` starts at the first key. -/
def parseObjLoop (pv : List Char → Option (JValue × List Char)) :
    Nat → List (String × JValue) → List Char → Option (JValue × List Char)
  | 0, _, _ => none
  | fuel + 1, acc, cs =>
    match skipWs cs with
    | '"' :: rest =>
      (match jstrChars (rest.length + 1) rest with
       | none => none
       | some (kchars, rest2) =>
         match skipWs rest2 with
         | ':' :: rest3 =>
           (match pv rest3 with
            | none => none
            | some (v, rest4) =>
              let acc2 := dictInsert (String.mk kchars) v acc
              match skipWs rest4 with
              | ',' :: rest5 => parseObjLoop pv fuel acc2 rest5
              | '\x7d' :: rest5 => some (JValue.jobj acc2, rest5)
              | _ => none)
         | _ => none)
    | _ => none

/-- A JSON value (leading whitespace allowed), fueled by input length.
`NaN`, `Infinity` and `-Infinity` are accepted, as Python's decoder does by
default. -/
def parseVal : Nat → List Char → Option (JValue × List Char)
  | 0, _ => none
  | fuel + 1, cs =>
    match skipWs cs with
    | [] => none
    | c :: rest =>
      if c == '"' then
        match jstrChars (rest.length + 1) rest with
        | some (out, r) => some (JValue.jstr (String.mk out), r)
        | none => none
      else if c == '[' then
        match skipWs rest with
        | ']' :: r => some (JValue.jarr [], r)
        | cs2 => parseArrLoop (parseVal fuel) fuel [] cs2
      else if c == '\x7b' then
        match skipWs rest with
        | '\x7d' :: r => some (JValue.jobj [], r)
        | cs2 => parseObjLoop (parseVal fuel) fuel [] cs2
      else
        let l := c :: rest
        if strStartsWith l "null".data then some (JValue.jnull, l.drop 4)
        else if strStartsWith l "true".data then some (JValue.jbool true, l.drop 4)
        else if strStartsWith l "false".data then some (JValue.jbool false, l.drop 5)
        else if strStartsWith l "NaN".data then some (JValue.jnum "NaN", l.drop 3)
        else if strStartsWith l "Infinity".data then some (JValue.jnum "Infinity", l.drop 8)
        else if strStartsWith l "-Infinity".data then some (JValue.jnum "-Infinity", l.drop 9)
        else
          match parseNum l with
          | some (lex, r) => some (JValue.jnum (String.mk lex), r)
          | none => none

/-- Executable model of `json.loads`: a single JSON value surrounded by
optional whitespace, with nothing left over. -/
def jsonParse (s : String) : Option JValue :=
  match parseVal (s.data.length + 1) s.data with
  | some (v, rest) => if (skipWs rest).isEmpty then some v else none
  | none => none

/-- Lookup in a decoded object's field list. -/
def lookupField : List (String × JValue) → String → Option JValue
  | [], _ => none
  | (k2, v) :: rest, k => if k2 == k then some v else lookupField rest k

/-- Field access on a JSON value: `some` only for objects that have the key. -/
def jGetField : JValue → String → Option JValue
  | JValue.jobj fields, k => lookupField fields k
  | _, _ => none

/-! Resume parser (`parse_resume_with_ai` in `agents.py`). -/

/-- The prompt built by `parse_resume_with_ai`, with the resume truncated to
800 characters. -/
def resumePrompt (resume_text : String) : String :=
  "\n    Analyze the following resume text and extract the \u0027Job Role\u0027 (e.g., Python Developer, Data Scientist) and a list of \u0027Key Skills\u0027.\n    Return ONLY valid JSON format like this:\n    \x7b\n        \"role\": \"extracted role\",\n        \"skills\": [\"skill1\", \"skill2\", \"skill3\"]\n    \x7d\n    \n    Resume Text:\n    "
    ++ pyTake resume_text 800 ++ "\n    "

/-- The hardcoded record returned when the client's reply is falsy. -/
def DEFAULT_PARSED_RESUME : JValue :=
  JValue.jobj [("role", JValue.jstr "Software Developer"),
               ("skills", JValue.jarr [JValue.jstr "Python"])]

/-- Message of the exception raised by the external JSON decoder on invalid
input.  Its exact text is defined by the Python standard library, not by
this repository; the embedding only relies on a message existing, so it is
modelled as a fixed descriptor of the offending document. -/
def jsonDecodeErrMsg (s : String) : String := "JSONDecodeError: " ++ s

/-- The code-fence clean-up on line 53 of `agents.py`:
`response_text.replace("```json", "").replace("```", "").strip()`. -/
def cleanedResponse (response_text : String) : String :=
  pyStrip (pyReplace (pyReplace response_text "```json" "") "```" "")

/-- Embedding of `parse_resume_with_ai(resume_text, api_key)`.  A falsy reply
(null sentinel or empty string) yields the hardcoded default record; a decode
failure yields the default role with an empty skills list and an `error`
field; otherwise the decoded JSON value is returned as is. -/
def parse_resume_with_ai (resume_text : String)
    (env : String → Nat → Except String String) : JValue :=
  let response_text := get_gemini_response (resumePrompt resume_text) env
  if pyFalsy response_text then DEFAULT_PARSED_RESUME
  else
    let cleaned := cleanedResponse (response_text.getD "")
    match jsonParse cleaned with
    | some v => v
    | none =>
      JValue.jobj [("role", JValue.jstr "Software Developer"),
                   ("skills", JValue.jarr []),
                   ("error", JValue.jstr (jsonDecodeErrMsg cleaned))]

/-! Job discovery (`search_jobs_jsearch`, `simulate_job_discovery` and
`discover_jobs` in `agents.py`). -/

/-- One element of the JSearch response's `data` array, restricted to the
fields the code reads; `none` models an absent key (so `item.get(k, d)`
returns the default `d`). -/
structure JSearchItem where
  employer_name : Option String
  job_title : Option String
  job_city : Option String
  job_description : Option String
  job_apply_link : Option String
  employer_website : Option String

/-- The internal job record (one element of the lists built by discovery). -/
structure Job where
  company : String
  role : String
  location : String
  hr_email : String
  job_description : String
  apply_link : String
  status : String
deriving DecidableEq, Repr

/-- The loop body of `search_jobs_jsearch`: mapping of one JSearch item into
a `Job`, including the best-guess HR-email synthesis. -/
def jsearchJobOfItem (role location : String) (item : JSearchItem) : Job :=
  let company := item.employer_name.getD "Unknown Company"
  let job_title := item.job_title.getD role
  let job_location := pyOr (item.job_city.getD location) location
  let job_description := pyTake (item.job_description.getD "") 800
  let apply_link := item.job_apply_link.getD ""
  let employer_website := item.employer_website.getD ""
  let domain :=
    if !employer_website.isEmpty then
      String.mk (((pyReplace (pyReplace (pyReplace employer_website
        "https://" "") "http://" "") "www." "").data.takeWhile (fun c => c != '/')))
    else if !company.isEmpty then
      pyReplace (pyReplace (pyReplace (pyLower company) " " "") "," "") "." "" ++ ".com"
    else ""
  let hr_email :=
    if !domain.isEmpty then "hr@" ++ domain
    else "careers@" ++ pyReplace (pyLower company) " " "" ++ ".com"
  { company := company, role := job_title, location := job_location,
    hr_email := hr_email, job_description := job_description,
    apply_link := apply_link, status := "Found" }

/-- Embedding of `search_jobs_jsearch(role, location, rapidapi_key,
num_results)`.  The HTTP layer is `apiResp`: `none` is the exception path
(caught and turned into an empty list), `some items` the decoded `data`
array, of which the first `num_results` are mapped. -/
def search_jobs_jsearch (role location _rapidapi_key : String)
    (apiResp : Option (List JSearchItem)) (num_results : Nat) : List Job :=
  match apiResp with
  | none => []
  | some items => (items.take num_results).map (jsearchJobOfItem role location)

/-- The fixed company pool of `simulate_job_discovery`. -/
def simCompanies : List String :=
  ["TechCorp Solutions", "InnovateX", "DataStream Inc.", "CloudNet Systems", "AlphaWave AI"]

/-- Linear congruential step driving the modelled shuffle. -/
def lcgNext (s : Nat) : Nat := (1103515245 * s + 12345) % 2147483648

/-- Fuel-driven Fisher-Yates selection: repeatedly extract the element at a
seed-determined index.  Fuel equal to the list length always suffices; the
fuel-0 case returns the list unchanged, keeping the result a permutation. -/
def pyShuffleFuel : Nat → Nat → List String → List String
  | 0, _, l => l
  | _ + 1, _, [] => []
  | fuel + 1, seed, a :: as =>
    let l := a :: as
    let i := seed % l.length
    l.get ⟨i, Nat.mod_lt _ (Nat.succ_pos as.length)⟩ ::
      pyShuffleFuel fuel (lcgNext seed) (l.eraseIdx i)

/-- Modelled from the spec: `random.shuffle(companies)` is the Python
standard library's Mersenne-Twister-driven in-place Fisher-Yates shuffle,
external to this repository.  The spec only relies on it producing a
uniformly chosen permutation deterministically from the generator's seed, so
it is modelled as a seed-indexed permutation of the input list. -/
def pyShuffle (seed : Nat) (l : List String) : List String :=
  pyShuffleFuel l.length seed l

/-- The record built for one company by `simulate_job_discovery`. -/
def simJob (role location company : String) : Job :=
  { company := company, role := role, location := location,
    hr_email := "hr@" ++ pyReplace (pyReplace (pyLower company) " " "") "." "" ++ ".com",
    job_description :=
      "We are looking for a skilled " ++ role ++ " to join our team at " ++
        company ++ " in " ++ location ++ ". " ++
        "The ideal candidate should have strong technical skills and experience in software development.",
    apply_link := "", status := "Found (Simulated)" }

/-- Embedding of `simulate_job_discovery(role, location)`: shuffle the fixed
five-company pool, keep the first three, build a record for each. -/
def simulate_job_discovery (role location : String) (seed : Nat) : List Job :=
  ((pyShuffle seed simCompanies).take 3).map (simJob role location)

/-- Embedding of `discover_jobs(role, location, rapidapi_key)`: with a
non-blank key, try the real search and return `("real", jobs)` when it found
anything; otherwise fall back to the simulation with mode `"simulated"`. -/
def discover_jobs (role location rapidapi_key : String)
    (apiResp : Option (List JSearchItem)) (seed : Nat) : List Job × String :=
  if !rapidapi_key.isEmpty && !(pyStrip rapidapi_key).isEmpty then
    let jobs := search_jobs_jsearch role location rapidapi_key apiResp 3
    if !jobs.isEmpty then (jobs, "real")
    else (simulate_job_discovery role location seed, "simulated")
  else (simulate_job_discovery role location seed, "simulated")

/-! Content generators (`generate_cover_letter` and
`generate_interview_questions` in `agents.py`). -/

/-- The prompt built by `generate_cover_letter`, with the job description
truncated to 400 characters and the resume to 500. -/
def coverLetterPrompt (resume_text : String) (job : Job) : String :=
  "Write a professional and personalized cover letter for the following job.\nRole: "
    ++ job.role ++ "\nCompany: " ++ job.company ++ "\nJob Description: "
    ++ pyTake job.job_description 400
    ++ "\n\nCandidate Resume (first 500 chars):\n" ++ pyTake resume_text 500
    ++ "\n\nInstructions:\n- Be concise (max 180 words)\n- Mention specific skills that match the job description\n- Be professional and enthusiastic\n- Do NOT use generic phrases like \"I am writing to express\"\n"

/-- The fallback-mode marker text inside the static cover letter. -/
def coverLetterFallbackMarker : String :=
  "Generated via Fallback Mode — Gemini API rate limit reached"

/-- The static fallback cover letter returned on a falsy client reply. -/
def fallbackCoverLetter (role company : String) : String :=
  "Dear Hiring Manager,\n\nI am excited to apply for the " ++ role
    ++ " position at " ++ company
    ++ ". Based on my experience and skills outlined in my resume, I am confident I can make a meaningful contribution to your team.\n\nMy technical background aligns well with the requirements of this role. I am particularly drawn to "
    ++ company
    ++ "\u0027s mission and believe my skills would be a strong match.\n\nI look forward to the opportunity to discuss how I can contribute. Thank you for your consideration.\n\nSincerely,\nApplicant\n(Note: "
    ++ coverLetterFallbackMarker ++ ")\n        "

/-- Embedding of `generate_cover_letter(resume_text, job, api_key)`. -/
def generate_cover_letter (resume_text : String) (job : Job)
    (env : String → Nat → Except String String) : String :=
  let response := get_gemini_response (coverLetterPrompt resume_text job) env
  if pyFalsy response then fallbackCoverLetter job.role job.company
  else response.getD ""

/-- The `job_summaries` accumulation of `generate_interview_questions`:
`enumerate(found_jobs[:3], 1)` with each description cut to 300 characters. -/
def interviewJobSummaries (role : String) (found_jobs : List Job) : String :=
  ((found_jobs.take 3).enum.map (fun p =>
      "\n" ++ toString (p.1 + 1) ++ ". " ++ p.2.company ++ " - " ++ role ++ ":\n"
        ++ pyTake p.2.job_description 300 ++ "\n")).foldl (fun a b => a ++ b) ""

/-- The prompt built by `generate_interview_questions`, with the resume
truncated to 600 characters. -/
def interviewPrompt (role resume_text : String) (found_jobs : List Job) : String :=
  "You are an expert interview coach. Generate 10 targeted interview questions for a candidate who just applied to the following jobs.\n\nJOBS APPLIED TO:\n"
    ++ interviewJobSummaries role found_jobs
    ++ "\n\nCANDIDATE RESUME (excerpt):\n" ++ pyTake resume_text 600
    ++ "\n\nGenerate 10 specific interview questions that:\n1. Match the technical skills required in the actual job descriptions above\n2. Reference the candidate\u0027s actual experience from their resume\n3. Include both technical and behavioral questions\n4. Are specific — not generic\n\nFormat as a numbered list. Each question should be on its own line.\n"

/-- The static fallback question list returned on a falsy client reply. -/
def fallbackInterviewQuestions (role : String) : String :=
  "**Standard Interview Questions for " ++ role
    ++ "** *(Gemini API rate limit reached)*\n\n1. Walk me through your experience as a "
    ++ role
    ++ ".\n2. What tools and technologies do you use daily in your work as a "
    ++ role
    ++ "?\n3. Describe a challenging project you completed — what was your role and what did you learn?\n4. How do you stay up-to-date with the latest trends in your field?\n5. Describe a situation where you had to debug a difficult problem under pressure.\n6. How do you approach working in a team with different skill sets?\n7. Tell me about a time you disagreed with a technical decision — how was it resolved?\n8. What is your experience with code review and best practices?\n9. How do you handle multiple competing deadlines?\n10. Do you have any questions for the team about the role or company culture?\n        "

/-- Embedding of `generate_interview_questions(role, resume_text, found_jobs,
api_key)`. -/
def generate_interview_questions (role resume_text : String)
    (found_jobs : List Job) (env : String → Nat → Except String String) : String :=
  let response := get_gemini_response (interviewPrompt role resume_text found_jobs) env
  if pyFalsy response then fallbackInterviewQuestions role
  else response.getD ""

/-! Helper lemmas about the string models. -/

theorem listContains_nil_pat (l : List Char) : listContains l [] = true := by
  cases l <;> simp [listContains, strStartsWith, List.isEmpty]

theorem strStartsWith_self_append (p y : List Char) : strStartsWith (p ++ y) p = true := by
  induction p with
  | nil => cases y <;> simp [strStartsWith]
  | cons c cs ih => simp [strStartsWith, ih]

theorem strStartsWith_extend (l p m : List Char) (h : strStartsWith l p = true) :
    strStartsWith (l ++ m) p = true := by
  induction p generalizing l with
  | nil => cases l <;> cases m <;> simp [strStartsWith]
  | cons q qs ih =>
    cases l with
    | nil => simp [strStartsWith] at h
    | cons c cs =>
      simp only [strStartsWith, Bool.and_eq_true, beq_iff_eq] at h
      simp only [List.cons_append, strStartsWith, Bool.and_eq_true, beq_iff_eq]
      exact ⟨h.1, ih cs h.2⟩

theorem listContains_of_starts (l p : List Char) (h : strStartsWith l p = true) :
    listContains l p = true := by
  cases l with
  | nil =>
    cases p with
    | nil => simp [listContains, List.isEmpty]
    | cons q qs => simp [strStartsWith] at h
  | cons c cs => simp [listContains, h]

theorem listContains_append_left (l m p : List Char) (h : listContains l p = true) :
    listContains (l ++ m) p = true := by
  induction l with
  | nil =>
    simp only [listContains] at h
    cases p with
    | nil => simpa using listContains_nil_pat m
    | cons q qs => simp [List.isEmpty] at h
  | cons c cs ih =>
    simp only [listContains, Bool.or_eq_true] at h
    show listContains (c :: (cs ++ m)) p = true
    simp only [listContains, Bool.or_eq_true]
    rcases h with h | h
    · exact Or.inl (by simpa using strStartsWith_extend (c :: cs) p m h)
    · exact Or.inr (ih h)

theorem listContains_append_right (l m p : List Char) (h : listContains m p = true) :
    listContains (l ++ m) p = true := by
  induction l with
  | nil => simpa using h
  | cons c cs ih =>
    show listContains (c :: (cs ++ m)) p = true
    simp [listContains, ih]

theorem strContains_append_left (a b p : String) (h : strContains a p = true) :
    strContains (a ++ b) p = true := by
  unfold strContains at h ⊢
  rw [String.data_append]
  exact listContains_append_left _ _ _ h

theorem strContains_append_right (a b p : String) (h : strContains b p = true) :
    strContains (a ++ b) p = true := by
  unfold strContains at h ⊢
  rw [String.data_append]
  exact listContains_append_right _ _ _ h

theorem strContains_self (p : String) : strContains p p = true := by
  unfold strContains
  exact listContains_of_starts _ _ (by simpa using strStartsWith_self_append p.data [])

theorem strContains_append_end (a p : String) : strContains (a ++ p) p = true :=
  strContains_append_right a p p (strContains_self p)

theorem str_append_left_ne_empty (a x : String) (ha : a.data.length ≠ 0) :
    a ++ x ≠ "" := by
  intro h
  have h2 : (a ++ x).data.length = ("" : String).data.length := by rw [h]
  rw [String.data_append, List.length_append] at h2
  have h3 : ("" : String).data.length = 0 := rfl
  omega

theorem str_append_right_ne_empty (a x : String) (hx : x.data.length ≠ 0) :
    a ++ x ≠ "" := by
  intro h
  have h2 : (a ++ x).data.length = ("" : String).data.length := by rw [h]
  rw [String.data_append, List.length_append] at h2
  have h3 : ("" : String).data.length = 0 := rfl
  omega

theorem pyTake_length_le (s : String) (n : Nat) : (pyTake s n).length ≤ n := by
  show (s.data.take n).length ≤ n
  rw [List.length_take]
  exact Nat.min_le_left _ _

/-! Helper lemmas about the modelled shuffle. -/

theorem cons_get_eraseIdx_perm (l : List String) (i : Nat) (h : i < l.length) :
    (l.get ⟨i, h⟩ :: l.eraseIdx i).Perm l := by
  have h1 : l.eraseIdx i = l.take i ++ l.drop (i + 1) :=
    List.eraseIdx_eq_take_drop_succ l i
  have h2 : l.take i ++ l.get ⟨i, h⟩ :: l.drop (i + 1) = l := by
    rw [List.get_eq_getElem, List.getElem_cons_drop l i h, List.take_append_drop]
  have h3 : (l.take i ++ l.get ⟨i, h⟩ :: l.drop (i + 1)).Perm l := by rw [h2]
  rw [h1]
  exact List.perm_middle.symm.trans h3

theorem pyShuffleFuel_perm : ∀ (fuel seed : Nat) (l : List String),
    (pyShuffleFuel fuel seed l).Perm l
  | 0, _, l => by simp [pyShuffleFuel]
  | _ + 1, _, [] => by simp [pyShuffleFuel]
  | fuel + 1, seed, a :: as => by
    have ih := pyShuffleFuel_perm fuel (lcgNext seed)
      ((a :: as).eraseIdx (seed % (a :: as).length))
    simp only [pyShuffleFuel]
    exact (ih.cons _).trans (cons_get_eraseIdx_perm _ _ _)

theorem pyShuffle_perm (seed : Nat) (l : List String) : (pyShuffle seed l).Perm l :=
  pyShuffleFuel_perm l.length seed l

theorem pyShuffle_length (seed : Nat) (l : List String) :
    (pyShuffle seed l).length = l.length :=
  (pyShuffle_perm seed l).length_eq

/-! Helper lemmas about discovery. -/

theorem discover_jobs_no_key (role location : String)
    (apiResp : Option (List JSearchItem)) (seed : Nat) :
    discover_jobs role location "" apiResp seed =
      (simulate_job_discovery role location seed, "simulated") := rfl

theorem simulate_job_discovery_length (role location : String) (seed : Nat) :
    (simulate_job_discovery role location seed).length = 3 := by
  simp [simulate_job_discovery, List.length_take, pyShuffle_length, simCompanies]

theorem simulate_job_discovery_mem (role location : String) (seed : Nat) (j : Job)
    (hj : j ∈ simulate_job_discovery role location seed) :
    ∃ c ∈ simCompanies, j = simJob role location c := by
  simp only [simulate_job_discovery, List.mem_map] at hj
  obtain ⟨c, hc, rfl⟩ := hj
  exact ⟨c, (pyShuffle_perm seed simCompanies).mem_iff.mp (List.mem_of_mem_take hc), rfl⟩

theorem simJob_hr_email_ne_empty (role location c : String) :
    (simJob role location c).hr_email ≠ "" := by
  show "hr@" ++ pyReplace (pyReplace (pyLower c) " " "") "." "" ++ ".com" ≠ ""
  exact str_append_right_ne_empty _ _ (by decide)

/-! Claim theorems. -/

/-- C1: for every prompt, if the underlying call raises a rate-limit-class
error on all 3 attempts, `get_gemini_response` returns the null sentinel
(`none`) and never propagates an exception (the embedding is a total
function); if the first reached attempt fails with a non-rate-limit error,
it returns the string `"Error: " ++ str(e)` instead of raising. -/
theorem C1_gemini_error_policy (prompt : String)
    (env : String → Nat → Except String String) :
    ((∀ i, i < max_retries →
        ∃ e, env prompt i = Except.error e ∧ isRateLimitError e = true) →
      get_gemini_response prompt env = none) ∧
    (∀ i e, i < max_retries →
      (∀ j, j < i → ∃ e2, env prompt j = Except.error e2 ∧ isRateLimitError e2 = true) →
      env prompt i = Except.error e → isRateLimitError e = false →
      get_gemini_response prompt env = some ("Error: " ++ e)) := by
  have hr : List.range max_retries = [0, 1, 2] := rfl
  constructor
  · intro hall
    obtain ⟨e0, he0, hb0⟩ := hall 0 (by simp [max_retries])
    obtain ⟨e1, he1, hb1⟩ := hall 1 (by simp [max_retries])
    obtain ⟨e2, he2, hb2⟩ := hall 2 (by simp [max_retries])
    simp [get_gemini_response, hr, geminiLoop, he0, hb0, he1, hb1, he2, hb2]
  · intro i e hi hprev he hb
    have hi3 : i < 3 := hi
    interval_cases i
    · simp [get_gemini_response, hr, geminiLoop, he, hb]
    · obtain ⟨e0, he0, hb0⟩ := hprev 0 (by omega)
      simp [get_gemini_response, hr, geminiLoop, he0, hb0, he, hb]
    · obtain ⟨e0, he0, hb0⟩ := hprev 0 (by omega)
      obtain ⟨e1, he1, hb1⟩ := hprev 1 (by omega)
      simp [get_gemini_response, hr, geminiLoop, he0, hb0, he1, hb1, he, hb]

/-- Witness for C1 at concrete environments: a client whose three attempts
all fail with a 429 yields the null sentinel, and one whose first attempt
fails with a non-rate-limit exception yields the error string. -/
theorem C1_gemini_error_policy_witness :
    get_gemini_response "p" (fun _ _ => Except.error "429") = none ∧
    get_gemini_response "q" (fun _ _ => Except.error "boom") =
      some ("Error: " ++ "boom") := by
  constructor
  · exact (C1_gemini_error_policy "p" _).1 (fun i _ => ⟨"429", rfl, by decide⟩)
  · exact (C1_gemini_error_policy "q" _).2 0 "boom" (by decide)
      (fun j hj => absurd hj (by omega)) rfl (by decide)

/-- C2: with no search-API key, discovery reports mode `"simulated"` and
returns exactly 3 listings; each is the record synthesized for one of the 5
pool companies, with the non-empty company-derived `hr_email`. -/
theorem C2_simulated_discovery (role location : String) (seed : Nat) :
    (discover_jobs role location "" none seed).2 = "simulated" ∧
    (discover_jobs role location "" none seed).1.length = 3 ∧
    ∀ j ∈ (discover_jobs role location "" none seed).1,
      j.hr_email ≠ "" ∧
      ∃ c ∈ simCompanies, j = simJob role location c ∧
        j.hr_email =
          "hr@" ++ pyReplace (pyReplace (pyLower c) " " "") "." "" ++ ".com" := by
  rw [discover_jobs_no_key]
  refine ⟨rfl, simulate_job_discovery_length role location seed, ?_⟩
  intro j hj
  obtain ⟨c, hc, rfl⟩ := simulate_job_discovery_mem role location seed j hj
  exact ⟨simJob_hr_email_ne_empty role location c, c, hc, rfl, rfl⟩

/-- Witness for C2 at a concrete call, including one concrete member of the
returned list. -/
theorem C2_simulated_discovery_witness :
    (discover_jobs "Dev" "Pune" "" none 0).2 = "simulated" ∧
    (discover_jobs "Dev" "Pune" "" none 0).1.length = 3 ∧
    (simJob "Dev" "Pune" "TechCorp Solutions").hr_email ≠ "" := by
  obtain ⟨h1, h2, h3⟩ := C2_simulated_discovery "Dev" "Pune" 0
  refine ⟨h1, h2, ?_⟩
  have hm : simJob "Dev" "Pune" "TechCorp Solutions" ∈
      (discover_jobs "Dev" "Pune" "" none 0).1 := by decide
  exact (h3 _ hm).1

/-- C8: with the random generator fixed to the same seed, two keyless
`discover` calls select the same 3 companies in the same order, namely the
first 3 of the seed-determined permutation of the fixed 5-company pool. -/
theorem C8_fixed_seed_repeatable (role location : String) (seed1 seed2 : Nat)
    (h : seed1 = seed2) :
    (discover_jobs role location "" none seed1).1.map Job.company =
      (discover_jobs role location "" none seed2).1.map Job.company ∧
    (discover_jobs role location "" none seed1).1.map Job.company =
      (pyShuffle seed1 simCompanies).take 3 ∧
    (pyShuffle seed1 simCompanies).Perm simCompanies := by
  subst h
  refine ⟨rfl, ?_, pyShuffle_perm seed1 simCompanies⟩
  rw [discover_jobs_no_key]
  show (((pyShuffle seed1 simCompanies).take 3).map (simJob role location)).map
      Job.company = (pyShuffle seed1 simCompanies).take 3
  rw [List.map_map]
  have hco : (Job.company ∘ simJob role location) = id := rfl
  rw [hco, List.map_id]

/-- Witness for C8 at a concrete seed. -/
theorem C8_fixed_seed_repeatable_witness :
    (discover_jobs "Dev" "Pune" "" none 7).1.map Job.company =
      (discover_jobs "Dev" "Pune" "" none 7).1.map Job.company ∧
    (discover_jobs "Dev" "Pune" "" none 7).1.map Job.company =
      (pyShuffle 7 simCompanies).take 3 ∧
    (pyShuffle 7 simCompanies).Perm simCompanies :=
  C8_fixed_seed_repeatable "Dev" "Pune" 7 7 rfl

/-- C9: discovery reports mode `"real"` only together with a non-empty job
list, and whenever the real search yields no results (in particular on API
failure, which returns the empty list) it falls back to the 3 simulated
listings with mode `"simulated"`; the result `("real", [])` is unreachable. -/
theorem C9_real_mode_nonempty (role location rapidapi_key : String)
    (apiResp : Option (List JSearchItem)) (seed : Nat) :
    ((discover_jobs role location rapidapi_key apiResp seed).2 = "real" →
      (discover_jobs role location rapidapi_key apiResp seed).1 ≠ []) ∧
    (search_jobs_jsearch role location rapidapi_key apiResp 3 = [] →
      (discover_jobs role location rapidapi_key apiResp seed).2 = "simulated" ∧
      (discover_jobs role location rapidapi_key apiResp seed).1.length = 3) := by
  simp only [discover_jobs]
  split_ifs with hk hj
  · constructor
    · intro _ hnil
      have hnil2 : search_jobs_jsearch role location rapidapi_key apiResp 3 = [] := hnil
      rw [hnil2] at hj
      simp at hj
    · intro hempty
      rw [hempty] at hj
      simp at hj
  · constructor
    · intro hm
      exact ((by decide : ("simulated" : String) ≠ "real") hm).elim
    · intro _
      exact ⟨rfl, simulate_job_discovery_length role location seed⟩
  · constructor
    · intro hm
      exact ((by decide : ("simulated" : String) ≠ "real") hm).elim
    · intro _
      exact ⟨rfl, simulate_job_discovery_length role location seed⟩

/-- An item with every field absent, for concrete witnesses. -/
def itemPlain : JSearchItem :=
  { employer_name := none, job_title := none, job_city := none,
    job_description := none, job_apply_link := none, employer_website := none }

/-- Witness for C9: a successful response gives a non-empty real list, and a
failed API call (empty search result) gives the simulated triple. -/
theorem C9_real_mode_nonempty_witness :
    (discover_jobs "Dev" "Pune" "key" (some [itemPlain]) 0).1 ≠ [] ∧
    ((discover_jobs "Dev" "Pune" "key" none 0).2 = "simulated" ∧
      (discover_jobs "Dev" "Pune" "key" none 0).1.length = 3) := by
  constructor
  · exact (C9_real_mode_nonempty "Dev" "Pune" "key" (some [itemPlain]) 0).1 rfl
  · exact (C9_real_mode_nonempty "Dev" "Pune" "key" none 0).2 rfl

/-- A JSearch listing whose employer website is mixed-case with protocol,
`www.` marker and a path, as in the claim's first example. -/
def itemAcme : JSearchItem :=
  { employer_name := some "Acme", job_title := none, job_city := none,
    job_description := none, job_apply_link := none,
    employer_website := some "https://www.Acme.io/careers" }

/-- A JSearch listing with no website and company name "Tech, Corp.", as in
the claim's second example. -/
def itemTechCorp : JSearchItem :=
  { employer_name := some "Tech, Corp.", job_title := none, job_city := none,
    job_description := none, job_apply_link := none, employer_website := none }

/-- C3 counterexample: for the website `"https://www.Acme.io/careers"` the
code synthesizes `hr@Acme.io` — the website-derived domain is never
lowercased — so the claimed `hr@acme.io` is wrong. -/
theorem C3_counterexample :
    (jsearchJobOfItem "Engineer" "Remote" itemAcme).hr_email = "hr@Acme.io" ∧
    "hr@Acme.io" ≠ "hr@acme.io" := ⟨rfl, by decide⟩

/-- C3 amended: protocol, `www.` and path are stripped from the employer
website but its letter case is preserved, giving `hr@Acme.io`; absent a
website, company `"Tech, Corp."` is lowercased, stripped of spaces, commas
and periods and suffixed `.com`, giving `hr@techcorp.com`. -/
theorem C3_amended_email_synthesis :
    (jsearchJobOfItem "Engineer" "Remote" itemAcme).hr_email = "hr@Acme.io" ∧
    (jsearchJobOfItem "Engineer" "Remote" itemTechCorp).hr_email = "hr@techcorp.com" :=
  ⟨rfl, rfl⟩

/-- The hr-email of every real-path record is non-empty: both the
`hr@<domain>` and the `careers@<company>.com` shapes have a non-empty
literal part. -/
theorem jsearchJobOfItem_hr_email_ne_empty (role location : String)
    (item : JSearchItem) : (jsearchJobOfItem role location item).hr_email ≠ "" := by
  simp only [jsearchJobOfItem]
  split_ifs <;>
    first
      | exact str_append_left_ne_empty _ _ (by decide)
      | exact str_append_right_ne_empty _ _ (by decide)

/-- The stored description of every real-path record is the 800-character
truncation of the listing's description. -/
theorem jsearchJobOfItem_jd_le (role location : String) (item : JSearchItem) :
    (jsearchJobOfItem role location item).job_description.length ≤ 800 := by
  show (pyTake (item.job_description.getD "") 800).length ≤ 800
  exact pyTake_length_le _ _

/-- C4: every job record produced by discovery (real or simulated) carries a
non-empty `hr_email`; the description text the generators forward to the
text-generation calls — `job_description[:400]` in the cover-letter prompt
and `[:300]` in the interview prompt — is within the 800-character budget;
and real-path records already store a description truncated to 800 at
creation. -/
theorem C4_record_invariants (role location rapidapi_key : String)
    (apiResp : Option (List JSearchItem)) (seed : Nat) (j : Job)
    (hj : j ∈ (discover_jobs role location rapidapi_key apiResp seed).1) :
    j.hr_email ≠ "" ∧
    (pyTake j.job_description 400).length ≤ 800 ∧
    (pyTake j.job_description 300).length ≤ 800 ∧
    ((discover_jobs role location rapidapi_key apiResp seed).2 = "real" →
      j.job_description.length ≤ 800) := by
  have hcap400 : (pyTake j.job_description 400).length ≤ 800 :=
    le_trans (pyTake_length_le _ _) (by omega)
  have hcap300 : (pyTake j.job_description 300).length ≤ 800 :=
    le_trans (pyTake_length_le _ _) (by omega)
  simp only [discover_jobs] at hj ⊢
  split_ifs at hj ⊢ with hk hjE
  · have hj2 : j ∈ search_jobs_jsearch role location rapidapi_key apiResp 3 := hj
    match apiResp with
    | none => simp [search_jobs_jsearch] at hj2
    | some items =>
      simp only [search_jobs_jsearch, List.mem_map] at hj2
      obtain ⟨item, _, rfl⟩ := hj2
      exact ⟨jsearchJobOfItem_hr_email_ne_empty role location item, hcap400,
        hcap300, fun _ => jsearchJobOfItem_jd_le role location item⟩
  · obtain ⟨c, _, rfl⟩ := simulate_job_discovery_mem role location seed j hj
    exact ⟨simJob_hr_email_ne_empty role location c, hcap400, hcap300,
      fun hm => (((by decide : ("simulated" : String) ≠ "real") hm)).elim⟩
  · obtain ⟨c, _, rfl⟩ := simulate_job_discovery_mem role location seed j hj
    exact ⟨simJob_hr_email_ne_empty role location c, hcap400, hcap300,
      fun hm => (((by decide : ("simulated" : String) ≠ "real") hm)).elim⟩

/-- Witness for C4 on a concrete member of a concrete simulated discovery. -/
theorem C4_record_invariants_witness :
    (simJob "Dev" "Pune" "TechCorp Solutions").hr_email ≠ "" ∧
    (pyTake (simJob "Dev" "Pune" "TechCorp Solutions").job_description 400).length ≤ 800 ∧
    (pyTake (simJob "Dev" "Pune" "TechCorp Solutions").job_description 300).length ≤ 800 ∧
    ((discover_jobs "Dev" "Pune" "" none 0).2 = "real" →
      (simJob "Dev" "Pune" "TechCorp Solutions").job_description.length ≤ 800) :=
  C4_record_invariants "Dev" "Pune" "" none 0 _ (by decide)

/-- An environment whose reply is not JSON, for C5. -/
def envBadJson : String → Nat → Except String String :=
  fun _ _ => Except.ok "not json"

/-- C5 counterexample: after a JSON-parse failure the returned record's
`skills` field is the empty list, not `["Python"]` as the claim states. -/
theorem C5_counterexample :
    jGetField (parse_resume_with_ai "resume" envBadJson) "skills" =
      some (JValue.jarr []) ∧
    some (JValue.jarr []) ≠ some (JValue.jarr [JValue.jstr "Python"]) := by
  refine ⟨rfl, ?_⟩
  intro h
  simp at h

/-- C5 amended: on a falsy reply (the null sentinel in particular) parse
returns the hardcoded default record with skills `["Python"]`; on a
JSON-parse failure it returns the default role with an EMPTY skills list,
annotated with an `error` field describing the decode error. -/
theorem C5_amended_fallback_records (resume_text : String)
    (env : String → Nat → Except String String) :
    (pyFalsy (get_gemini_response (resumePrompt resume_text) env) = true →
      parse_resume_with_ai resume_text env = DEFAULT_PARSED_RESUME) ∧
    (∀ s, get_gemini_response (resumePrompt resume_text) env = some s →
      s.isEmpty = false → jsonParse (cleanedResponse s) = none →
      parse_resume_with_ai resume_text env =
        JValue.jobj [("role", JValue.jstr "Software Developer"),
                     ("skills", JValue.jarr []),
                     ("error", JValue.jstr (jsonDecodeErrMsg (cleanedResponse s)))]) := by
  constructor
  · intro hf
    simp [parse_resume_with_ai, hf]
  · intro s hs hne hp
    simp [parse_resume_with_ai, hs, pyFalsy, hne, hp]

/-- Witness for C5's amended statement: a rate-limited client yields the
default record, a non-JSON reply yields the empty-skills error record. -/
theorem C5_amended_fallback_records_witness :
    parse_resume_with_ai "r" (fun _ _ => Except.error "429") = DEFAULT_PARSED_RESUME ∧
    parse_resume_with_ai "r" envBadJson =
      JValue.jobj [("role", JValue.jstr "Software Developer"),
                   ("skills", JValue.jarr []),
                   ("error", JValue.jstr (jsonDecodeErrMsg (cleanedResponse "not json")))] := by
  constructor
  · exact (C5_amended_fallback_records "r" _).1 rfl
  · exact (C5_amended_fallback_records "r" envBadJson).2 "not json" rfl rfl rfl

/-- An environment whose reply is the valid JSON document of an empty
object, for C6. -/
def envEmptyObj : String → Nat → Except String String :=
  fun _ _ => Except.ok "\x7b\x7d"

/-- C6 counterexample: when the client replies with the valid JSON text of
an empty object, the decoded value is returned as is, so the result of
parse has neither a `role` nor a `skills` key. -/
theorem C6_counterexample :
    jGetField (parse_resume_with_ai "" envEmptyObj) "role" = none ∧
    jGetField (parse_resume_with_ai "" envEmptyObj) "skills" = none := ⟨rfl, rfl⟩

/-- C6 amended: parse never raises (the embedding is total), and whenever
the reply is falsy or fails to decode as JSON the returned record does have
both `role` and `skills` keys; only a successfully decoded reply is passed
through verbatim and may lack them. -/
theorem C6_amended_keys_on_fallback (resume_text : String)
    (env : String → Nat → Except String String)
    (h : pyFalsy (get_gemini_response (resumePrompt resume_text) env) = true ∨
      jsonParse (cleanedResponse
        ((get_gemini_response (resumePrompt resume_text) env).getD "")) = none) :
    (jGetField (parse_resume_with_ai resume_text env) "role").isSome = true ∧
    (jGetField (parse_resume_with_ai resume_text env) "skills").isSome = true := by
  by_cases hf : pyFalsy (get_gemini_response (resumePrompt resume_text) env) = true
  · simp only [parse_resume_with_ai, if_pos hf]
    exact ⟨rfl, rfl⟩
  · have hp : jsonParse (cleanedResponse
        ((get_gemini_response (resumePrompt resume_text) env).getD "")) = none := by
      rcases h with h | h
      · exact absurd h hf
      · exact h
    simp only [parse_resume_with_ai, if_neg hf, hp]
    exact ⟨rfl, rfl⟩

/-- Witness for C6's amended statement at a rate-limited environment. -/
theorem C6_amended_keys_on_fallback_witness :
    (jGetField (parse_resume_with_ai "cv"
        (fun _ _ => Except.error "Quota exceeded")) "role").isSome = true ∧
    (jGetField (parse_resume_with_ai "cv"
        (fun _ _ => Except.error "Quota exceeded")) "skills").isSome = true :=
  C6_amended_keys_on_fallback "cv" _ (Or.inl rfl)

/-- C7: whenever the text-generation call returns the null sentinel, the
cover-letter generator returns the static fallback template; that template
contains the fallback-mode marker text and the literal role and company
strings of the job record. -/
theorem C7_cover_letter_fallback (resume_text : String) (job : Job)
    (env : String → Nat → Except String String)
    (h : get_gemini_response (coverLetterPrompt resume_text job) env = none) :
    generate_cover_letter resume_text job env =
      fallbackCoverLetter job.role job.company ∧
    strContains (fallbackCoverLetter job.role job.company)
      coverLetterFallbackMarker = true ∧
    strContains (fallbackCoverLetter job.role job.company) job.role = true ∧
    strContains (fallbackCoverLetter job.role job.company) job.company = true := by
  refine ⟨?_, ?_, ?_, ?_⟩
  · simp [generate_cover_letter, h, pyFalsy]
  · unfold fallbackCoverLetter
    exact strContains_append_left _ _ _ (strContains_append_end _ _)
  · unfold fallbackCoverLetter
    exact strContains_append_left _ _ _ (strContains_append_left _ _ _
      (strContains_append_left _ _ _ (strContains_append_left _ _ _
      (strContains_append_left _ _ _ (strContains_append_left _ _ _
      (strContains_append_left _ _ _ (strContains_append_end _ _)))))))
  · unfold fallbackCoverLetter
    exact strContains_append_left _ _ _ (strContains_append_left _ _ _
      (strContains_append_left _ _ _ (strContains_append_end _ _)))

/-- A concrete job record for witnesses. -/
def jobW : Job :=
  { company := "CompX", role := "RoleX", location := "Remote",
    hr_email := "hr@compx.com", job_description := "desc", apply_link := "",
    status := "Found" }

/-- Witness for C7 at a rate-limited environment and a concrete job. -/
theorem C7_cover_letter_fallback_witness :
    generate_cover_letter "res" jobW (fun _ _ => Except.error "429") =
      fallbackCoverLetter jobW.role jobW.company ∧
    strContains (fallbackCoverLetter jobW.role jobW.company)
      coverLetterFallbackMarker = true ∧
    strContains (fallbackCoverLetter jobW.role jobW.company) jobW.role = true ∧
    strContains (fallbackCoverLetter jobW.role jobW.company) jobW.company = true :=
  C7_cover_letter_fallback "res" jobW _ rfl

/-- C10: all three callers test the client's reply for falsiness, so an
empty-string reply is treated exactly like the null sentinel: parse returns
the hardcoded default record, the cover-letter generator its static
fallback, and the question generator its static fallback list. -/
theorem C10_empty_reply_treated_as_null (resume_text role : String) (job : Job)
    (jobs : List Job) (envP envC envQ : String → Nat → Except String String)
    (hP : get_gemini_response (resumePrompt resume_text) envP = some "")
    (hC : get_gemini_response (coverLetterPrompt resume_text job) envC = some "")
    (hQ : get_gemini_response (interviewPrompt role resume_text jobs) envQ = some "") :
    parse_resume_with_ai resume_text envP = DEFAULT_PARSED_RESUME ∧
    generate_cover_letter resume_text job envC =
      fallbackCoverLetter job.role job.company ∧
    generate_interview_questions role resume_text jobs envQ =
      fallbackInterviewQuestions role := by
  refine ⟨?_, ?_, ?_⟩
  · simp only [parse_resume_with_ai, hP]
    rw [if_pos (by decide : pyFalsy (some "") = true)]
  · simp only [generate_cover_letter, hC]
    rw [if_pos (by decide : pyFalsy (some "") = true)]
  · simp only [generate_interview_questions, hQ]
    rw [if_pos (by decide : pyFalsy (some "") = true)]

/-- Witness for C10 at environments that reply with the empty string. -/
theorem C10_empty_reply_treated_as_null_witness :
    parse_resume_with_ai "cv" (fun _ _ => Except.ok "") = DEFAULT_PARSED_RESUME ∧
    generate_cover_letter "cv" jobW (fun _ _ => Except.ok "") =
      fallbackCoverLetter jobW.role jobW.company ∧
    generate_interview_questions "Dev" "cv" [jobW] (fun _ _ => Except.ok "") =
      fallbackInterviewQuestions "Dev" :=
  C10_empty_reply_treated_as_null "cv" "Dev" jobW [jobW] _ _ _ rfl rfl rfl

end PlacementAgent
